import Mathlib

/-!
Shallow embedding of the call-analyzer pipeline (backend/api.py,
backend/database.py, src/audio_transcriber.py).

Python dictionaries are modelled as structures with `Option` fields for keys
that may be absent; `dict.get(k, default)` becomes `Option.getD`.  Python
string truthiness (`if not s`) is emptiness of the string; the truthiness of
`None`/`False`/`True` return values is `pyTruthy` below.  Times are rationals
(the source uses Python floats only for second offsets such as 2.1 and 4.5,
which are exact decimals).
-/

namespace CallAnalyzer

/-- One raw transcription segment, as the Python dict flowing out of
`transcribe_with_whisper` / into `perform_speaker_diarization`.  Every key may
be absent, matching the `segment.get(...)` accesses in the source. -/
structure InSeg where
  text : Option String := none
  transcript : Option String := none
  content : Option String := none
  start : Option ℚ := none
  «end» : Option ℚ := none
  confidence : Option ℚ := none
deriving DecidableEq, Repr

/-- Drop leading whitespace characters from a character list. -/
def dropLeadingWs : List Char → List Char
  | [] => []
  | c :: cs => if c.isWhitespace then dropLeadingWs cs else c :: cs

/-- Python `str.strip()`: remove leading and trailing whitespace (restricted
to the space/tab/newline/carriage-return characters that occur in this
pipeline's data). -/
def pyStrip (s : String) : String :=
  ⟨(dropLeadingWs (dropLeadingWs s.data).reverse).reverse⟩

/-- `segment.get('text', '') or segment.get('transcript', '') or
segment.get('content', '')` from `perform_speaker_diarization`: Python `or`
returns the first non-empty string. -/
def effText (s : InSeg) : String :=
  let t := s.text.getD ""
  if t ≠ "" then t
  else
    let tr := s.transcript.getD ""
    if tr ≠ "" then tr else s.content.getD ""

/-- `segment.get('start', 0.0)`. -/
def startOf (s : InSeg) : ℚ := s.start.getD 0

/-- `segment.get('end', start_time + 1.0)`: the 1-unit default applies only
when the `end` key is absent. -/
def endOf (s : InSeg) : ℚ := s.«end».getD (startOf s + 1)

/-- The transcription dict returned by `transcribe_with_whisper` /
`transcribe_with_speechrecognition`.  The failure path of the latter returns
a dict that still has all these keys plus a non-empty `error` string. -/
structure Transcription where
  full_text : String := ""
  segments : List InSeg := []
  language : String := "unknown"
  duration : ℚ := 0
  error : Option String := none
deriving DecidableEq, Repr

/-- The filtering step of `transcribe_audio`: drop segments whose `text`
value strips to the empty string (only the `text` key is consulted there). -/
def filter_segments (t : Transcription) : Transcription :=
  { t with segments := t.segments.filter fun s => pyStrip (s.text.getD "") ≠ "" }

/-- Abstract model of the spaCy text classifier (`self.nlp` with a `textcat`
pipe): for a text it yields the top label of `doc.cats` with its score, or
`none` when `doc.cats` is empty (`if scores:` false).  The transcriber holds
`Option Classifier`: `none` covers both "no spaCy model" and "no textcat
pipe". -/
def Classifier := String → Option (String × ℚ)

/-- `"Customer" if last_speaker == "Agent" else "Agent"` — the alternation
fallback, with `last_speaker` possibly still `None`. -/
def alternate (last : Option String) : String :=
  if last = some "Agent" then "Customer" else "Agent"

/-- The speaker decision for segment `i` in `perform_speaker_diarization`:
index 0 is always `Agent`; otherwise adopt the classifier's top label when its
confidence is at least 0.7, and alternate in every other case. -/
def speakerFor (nlp : Option Classifier) (text : String) (i : ℕ)
    (last : Option String) : String :=
  if i = 0 then "Agent"
  else
    match nlp with
    | none => alternate last
    | some f =>
      match f text with
      | none => alternate last
      | some (label, conf) =>
        if (7 : ℚ) / 10 ≤ conf then label else alternate last

/-- One attributed segment appended by `perform_speaker_diarization`. -/
structure OutSeg where
  start : ℚ
  «end» : ℚ
  speaker : String
  duration : ℚ
  text : String
deriving DecidableEq, Repr

/-- The `for i, segment in enumerate(segments)` loop of
`perform_speaker_diarization`: `i` is the enumeration index, `last` the
`last_speaker` variable.  Segments whose effective text strips empty are
skipped without touching `last_speaker`. -/
def diarizeLoop (nlp : Option Classifier) :
    List InSeg → ℕ → Option String → List OutSeg
  | [], _, _ => []
  | s :: rest, i, last =>
    let text := pyStrip (effText s)
    if text = "" then diarizeLoop nlp rest (i + 1) last
    else
      let st := startOf s
      let en := endOf s
      let spk := speakerFor nlp text i last
      { start := st, «end» := en, speaker := spk, duration := en - st,
        text := text } :: diarizeLoop nlp rest (i + 1) (some spk)

/-- `AudioTranscriber.perform_speaker_diarization`: empty on a transcription
carrying a non-empty `error`, empty on no segments, otherwise the loop. -/
def perform_speaker_diarization (nlp : Option Classifier)
    (t : Transcription) : List OutSeg :=
  if t.error.getD "" ≠ "" then []
  else if t.segments.isEmpty then []
  else diarizeLoop nlp t.segments 0 none

/-- A transcription dict holding just the given segments (no error). -/
def mkT (segs : List InSeg) : Transcription :=
  { full_text := "", segments := segs, language := "en", duration := 0 }

/-- One dialogue entry built in `speaker_with_diarization`. -/
structure DiarSeg where
  start : ℚ
  «end» : ℚ
  speaker : String
  text : String
  duration : ℚ
deriving DecidableEq, Repr

/-- The dict returned by `speaker_with_diarization` (success path; the
function catches internal faults, and the loop body is total, so the pure
model always returns this shape — a non-empty dict, hence truthy). -/
structure DiarResult where
  source_file : String
  duration : ℚ
  language : String
  participants : List String
  participant_count : ℕ
  dialogue : List DiarSeg
  full_text : String
deriving DecidableEq, Repr

/-- `AudioTranscriber.speaker_with_diarization`: diarize, re-shape each
segment as a dialogue entry, and collect the distinct speakers
(`list(set(...))`; only first occurrences are kept here — the pipeline
consumes just the count, which agrees with the Python set's size). -/
def speaker_with_diarization (nlp : Option Classifier) (source_file : String)
    (t : Transcription) : DiarResult :=
  let ss := perform_speaker_diarization nlp t
  let dialogue := ss.map fun s =>
    { start := s.start, «end» := s.«end», speaker := s.speaker,
      text := s.text, duration := s.«end» - s.start : DiarSeg }
  let participants := (dialogue.map (·.speaker)).dedup
  { source_file := source_file, duration := t.duration,
    language := t.language, participants := participants,
    participant_count := participants.length, dialogue := dialogue,
    full_text := " ".intercalate (dialogue.map (·.text)) }

/-- The analyzer's output dict, restricted to the keys the orchestrator and
persistence layer consult.  `conversation_summary` is `Option` because
`analyze_conversation` returns an error dict without that key when a
sub-analysis fails, and `save_analysis_result` reads it with
`analysis['conversation_summary']` (a `KeyError` when absent); every other
key is read through `.get(...)` with a default and cannot affect control
flow, so only the consulted values are carried. -/
structure Analysis where
  overall_sentiment : Option (String × ℚ) := none
  conversation_summary : Option String := none
  quality_metrics_overall_score : Option ℚ := none
  quality_score : Option ℚ := none
deriving DecidableEq, Repr

/-- The `complete_analysis_data` dict assembled in `process_audio_file` and
passed to `CallAnalyzerDB.save_analysis_result`. -/
structure AnalysisData where
  analysis_id : String
  user_id : String
  processed_at : String
  source_file : String
  industry : String
  duration : ℚ
  participants : ℕ
  sentiment : String
  transcription : DiarResult
  conversation : List DiarSeg
  analysis : Analysis
  file_path : String
  quality_score : ℚ
deriving DecidableEq, Repr

/-- The restricted industry list, shared by `VALID_INDUSTRIES` in api.py and
the validation inside `save_analysis_result`. -/
def validIndustries : List String :=
  ["eCommerce", "Telecom", "Healthcare", "Travel", "Real Estate"]

/-- `CallAnalyzerDB.save_analysis_result`.  Python control flow: each failed
validation does `return False`; a missing `conversation_summary` key raises
`KeyError`, caught by the blanket `except` which does `return False`; a
database fault during INSERT/commit (modelled by `dbOk = false`) is caught
and does `return False`; after a successful commit the function falls off its
end, so Python returns `None` — there is no `return True` anywhere.  The
result type is therefore `Option Bool` with `none` standing for Python
`None`. -/
def save_analysis_result (dbOk : Bool) (d : AnalysisData) : Option Bool :=
  if d.analysis_id = "" then some false
  else if d.processed_at = "" then some false
  else if d.source_file = "" then some false
  else if d.industry = "" then some false
  else if d.industry ∉ validIndustries then some false
  else
    match d.analysis.conversation_summary with
    | none => some false
    | some _ => if dbOk then none else some false

/-- Python truthiness of a `None`/`False`/`True` return value: the condition
`if not success:` in `process_audio_file` fires exactly when this is
`false`. -/
def pyTruthy : Option Bool → Bool
  | none => false
  | some b => b

/-- One `update_progress` record (the dict stored in `processing_status` and
broadcast to subscribers; the wall-clock `timestamp` field is elided). -/
structure ProgressRecord where
  status : String
  progress : ℕ
  stage : String
  message : String
deriving DecidableEq, Repr

/-- `os.path.basename` for the POSIX paths built by the upload endpoint. -/
def basename (p : String) : String :=
  ⟨(p.data.reverse.takeWhile fun c => c ≠ '/').reverse⟩

/-- Assembly of `complete_analysis_data` in `process_audio_file`:
`sentiment` is `analysis_result.get('overall_sentiment', {}).get('label',
'neutral')`, `participants` is `len(transcription_result['participants'])`,
`quality_score` is `analysis_result.get('quality_score', 0.0)`. -/
def assemble_data (analysis_id user_id processed_at file_path industry :
    String) (tres : DiarResult) (an : Analysis) : AnalysisData :=
  { analysis_id := analysis_id, user_id := user_id,
    processed_at := processed_at, source_file := basename file_path,
    industry := industry, duration := tres.duration,
    participants := tres.participant_count,
    sentiment := (an.overall_sentiment.map Prod.fst).getD "neutral",
    transcription := tres, conversation := tres.dialogue, analysis := an,
    file_path := file_path, quality_score := (an.quality_score).getD 0 }

/-- The orchestrator `process_audio_file` (api.py lines 152-231), as the
sequence of `update_progress` records it emits.  The transcription
collaborator outcome is `tr`: `.error e` models a raised exception (caught by
the outer `except`, which appends the `(error, 0, "error")` record),
`.ok none` models a falsy return (`if not transcription:`), and
`.ok (some t)` a returned transcription dict.  `speaker_with_diarization`
always returns a non-empty dict, so `if not transcription_result:` can never
fire and is not represented; `analyze_conversation` catches its own faults
and returns a dict, so the analysis collaborator is the total value `an`;
`dbOk` is the storage collaborator accepting the INSERT/commit. -/
def process_audio_file (nlp : Option Classifier)
    (tr : Except String (Option Transcription)) (an : Analysis)
    (dbOk : Bool) (file_path analysis_id industry user_id processed_at :
    String) : List ProgressRecord :=
  let r1 : ProgressRecord :=
    ⟨"processing", 10, "transcription", "Starting audio transcription..."⟩
  match tr with
  | .error e => [r1, ⟨"error", 0, "error", "Processing failed: " ++ e⟩]
  | .ok none =>
    [r1, ⟨"error", 0, "transcription", "Failed to transcribe audio"⟩]
  | .ok (some t) =>
    let r2 : ProgressRecord :=
      ⟨"processing", 30, "transcription", "Starting Speaker Identification..."⟩
    let tres := speaker_with_diarization nlp (basename file_path) t
    let r3 : ProgressRecord :=
      ⟨"processing", 50, "analysis", "Performing NLP analysis..."⟩
    let r4 : ProgressRecord :=
      ⟨"processing", 60, "saving", "Analyzing Conversation..."⟩
    let r5 : ProgressRecord :=
      ⟨"processing", 80, "saving", "Saving analysis results..."⟩
    let d := assemble_data analysis_id user_id processed_at file_path
      industry tres an
    let r6 : ProgressRecord :=
      ⟨"processing", 90, "visualization", "Generating visualizations..."⟩
    let success := save_analysis_result dbOk d
    if pyTruthy success = false then
      [r1, r2, r3, r4, r5, r6,
       ⟨"error", 0, "saving", "Failed to save analysis results"⟩]
    else
      [r1, r2, r3, r4, r5, r6,
       ⟨"completed", 100, "completed", "Analysis completed successfully!"⟩]

/-- Python iteration of `ConnectionManager.broadcast`: channels are ids, a
channel is `alive` when `await connection.send_text(...)` succeeds.  The
`for` loop keeps an index into `self.active_connections` while the `except`
branch calls `self.active_connections.remove(connection)` on the same list,
so the next iteration reads index `i+1` of the shrunk list.  `fuel` only
bounds the recursion: the index grows by 1 per step and the list never grows,
so `conns.length + 1` steps always reach the `i ≥ length` exit first.
Returns the final registry and the channels the record was delivered to. -/
def broadcastLoop (alive : ℕ → Bool) :
    ℕ → List ℕ → ℕ → List ℕ → List ℕ × List ℕ
  | 0, l, _, d => (l, d)
  | fuel + 1, l, i, d =>
    if h : i < l.length then
      let c := l.get ⟨i, h⟩
      if alive c then broadcastLoop alive fuel l (i + 1) (d ++ [c])
      else broadcastLoop alive fuel (l.erase c) (i + 1) d
    else (l, d)

/-- `ConnectionManager.broadcast` over the registry `conns`. -/
def broadcast (alive : ℕ → Bool) (conns : List ℕ) : List ℕ × List ℕ :=
  broadcastLoop alive (conns.length + 1) conns 0 []

/-- The dict built by `update_progress` (wall-clock timestamp elided). -/
structure StatusUpdate where
  analysis_id : String
  status : String
  progress : ℕ
  stage : String
  message : String
deriving DecidableEq, Repr

/-- `update_progress`: store the record under the job id and broadcast it to
every channel of the single global registry — the registry is one flat list,
not keyed by job id.  Returns the stored record together with the broadcast
outcome (final registry, delivered channels). -/
def update_progress (alive : ℕ → Bool) (conns : List ℕ)
    (analysis_id status : String) (progress : ℕ) (stage message : String) :
    StatusUpdate × List ℕ × List ℕ :=
  (⟨analysis_id, status, progress, stage, message⟩, broadcast alive conns)

/-! ### Helper lemmas about the attribution loop -/

theorem alternate_eq_or (last : Option String) :
    alternate last = "Agent" ∨ alternate last = "Customer" := by
  unfold alternate
  split
  · exact Or.inr rfl
  · exact Or.inl rfl

theorem alternate_invol (last : Option String) :
    alternate (some (alternate (some (alternate last)))) = alternate last := by
  rcases alternate_eq_or last with h | h <;> rw [h] <;> decide

theorem speakerFor_none_eq (t : String) (i : ℕ) (last : Option String)
    (h0 : i = 0 → last = none) :
    speakerFor none t i last = alternate last := by
  unfold speakerFor
  by_cases hi : i = 0
  · simp [hi, h0 hi, alternate]
  · simp [hi]

theorem diarizeLoop_cons_ne (nlp : Option Classifier) (s : InSeg)
    (rest : List InSeg) (i : ℕ) (last : Option String)
    (hs : ¬ pyStrip (effText s) = "") :
    diarizeLoop nlp (s :: rest) i last =
      { start := startOf s, «end» := endOf s,
        speaker := speakerFor nlp (pyStrip (effText s)) i last,
        duration := endOf s - startOf s, text := pyStrip (effText s) } ::
      diarizeLoop nlp rest (i + 1)
        (some (speakerFor nlp (pyStrip (effText s)) i last)) := by
  simp only [diarizeLoop, if_neg hs]

theorem diarizeLoop_cons_empty (nlp : Option Classifier) (s : InSeg)
    (rest : List InSeg) (i : ℕ) (last : Option String)
    (hs : pyStrip (effText s) = "") :
    diarizeLoop nlp (s :: rest) i last = diarizeLoop nlp rest (i + 1) last := by
  simp only [diarizeLoop, if_pos hs]

theorem diarizeLoop_speaker_alt (segs : List InSeg) :
    ∀ (i : ℕ) (last : Option String),
    (∀ s ∈ segs, pyStrip (effText s) ≠ "") → (i = 0 → last = none) →
    ∀ (k : ℕ) (hk : k < (diarizeLoop none segs i last).length),
    ((diarizeLoop none segs i last).get ⟨k, hk⟩).speaker =
      if k % 2 = 0 then alternate last else alternate (some (alternate last)) := by
  induction segs with
  | nil =>
    intro i last _ _ k hk
    simp [diarizeLoop] at hk
  | cons s rest ih =>
    intro i last hne h0 k hk
    have hs : ¬ pyStrip (effText s) = "" := hne s (List.mem_cons_self s rest)
    have hspk : speakerFor none (pyStrip (effText s)) i last = alternate last :=
      speakerFor_none_eq _ i last h0
    revert hk
    rw [diarizeLoop_cons_ne none s rest i last hs, hspk]
    intro hk
    match k with
    | 0 => simp
    | k + 1 =>
      have hk' : k < (diarizeLoop none rest (i + 1)
          (some (alternate last))).length := by
        simpa using Nat.lt_of_succ_lt_succ hk
      have hIH := ih (i + 1) (some (alternate last))
        (fun x hx => hne x (List.mem_cons_of_mem _ hx))
        (fun h => absurd h (Nat.succ_ne_zero i)) k hk'
      have hget : ((_ :: diarizeLoop none rest (i + 1)
            (some (alternate last))).get ⟨k + 1, hk⟩) =
          (diarizeLoop none rest (i + 1) (some (alternate last))).get ⟨k, hk'⟩ :=
        rfl
      rw [hget, hIH]
      rcases Nat.mod_two_eq_zero_or_one k with h2 | h2
      · have h3 : (k + 1) % 2 = 1 := by omega
        rw [h2, h3]
        simp
      · have h3 : (k + 1) % 2 = 0 := by omega
        rw [h2, h3]
        simp [alternate_invol]

/-! ### Claim C4 -/

/-- The 3-segment transcript of the spec scenario: times
`(0, 2), (2.1, 4), (4.5, 6)`, no classifier configured. -/
def scen3 : List InSeg :=
  [{ text := some "Hello, how can I help?", start := some 0, «end» := some 2 },
   { text := some "My order is late", start := some (21 / 10), «end» := some 4 },
   { text := some "Let me check that for you", start := some (9 / 2),
     «end» := some 6 }]

/-- Claim C4: with no classifier configured, a timeline of non-empty segments
is attributed by strict alternation starting from Agent — segment `k` gets
`Agent` for even `k` and `Customer` for odd `k`. -/
theorem c4_strict_alternation (segs : List InSeg)
    (hne : ∀ s ∈ segs, pyStrip (effText s) ≠ "") (k : ℕ)
    (hk : k < (perform_speaker_diarization none (mkT segs)).length) :
    ((perform_speaker_diarization none (mkT segs)).get ⟨k, hk⟩).speaker =
      if k % 2 = 0 then "Agent" else "Customer" := by
  rcases segs with _ | ⟨s, rest⟩
  · simp [perform_speaker_diarization, mkT] at hk
  · have hpsd : perform_speaker_diarization none (mkT (s :: rest)) =
        diarizeLoop none (s :: rest) 0 none := by
      simp [perform_speaker_diarization, mkT]
    revert hk
    rw [hpsd]
    intro hk
    have h := diarizeLoop_speaker_alt (s :: rest) 0 none hne (fun _ => rfl) k hk
    simpa [alternate] using h

/-- Witness for C4: on the spec scenario the attributed speakers are
`[Agent, Customer, Agent]`. -/
theorem c4_strict_alternation_witness :
    ((perform_speaker_diarization none (mkT scen3)).get ⟨0, by decide⟩).speaker
        = "Agent"
  ∧ ((perform_speaker_diarization none (mkT scen3)).get ⟨1, by decide⟩).speaker
        = "Customer"
  ∧ ((perform_speaker_diarization none (mkT scen3)).get ⟨2, by decide⟩).speaker
        = "Agent" := by
  refine ⟨?_, ?_, ?_⟩
  · simpa using c4_strict_alternation scen3 (by decide) 0 (by decide)
  · simpa using c4_strict_alternation scen3 (by decide) 1 (by decide)
  · simpa using c4_strict_alternation scen3 (by decide) 2 (by decide)

/-! ### Claim C5 -/

/-- A concrete classifier: labels the text "hi" as Customer with
confidence 0.9. -/
def cEx : Classifier :=
  fun t => if t = "hi" then some ("Customer", 9 / 10) else none

/-- A non-empty timeline whose first segment is whitespace-only. -/
def c5segs : List InSeg :=
  [{ text := some "   ", start := some 0, «end» := some 1 },
   { text := some "hi", start := some 1, «end» := some 2 }]

/-- Counterexample to C5: on a non-empty timeline whose first segment is
whitespace-only, with a classifier configured, the first attributed segment
carries `Customer`, not `Agent` — the `i == 0` branch fires for the raw
index, and the whitespace segment at index 0 is skipped, so the first
emitted segment takes its label from the classifier. -/
theorem c5_counterexample :
    c5segs ≠ []
  ∧ (perform_speaker_diarization (some cEx) (mkT c5segs)).map OutSeg.speaker
      = ["Customer"]
  ∧ ("Customer" : String) ≠ "Agent" := by
  refine ⟨by decide, ?_, by decide⟩
  simp +decide only [perform_speaker_diarization, mkT, diarizeLoop, pyStrip,
    dropLeadingWs, effText, speakerFor, cEx, c5segs, alternate]
  norm_num

/-- Claim C5 as amended: when the first segment of the input timeline has
non-empty text after stripping, the first attributed segment always carries
`Agent`, classifier configured or not. -/
theorem c5_first_segment_agent (nlp : Option Classifier) (s : InSeg)
    (rest : List InSeg) (h0 : pyStrip (effText s) ≠ "") :
    ((perform_speaker_diarization nlp (mkT (s :: rest))).head?).map
      OutSeg.speaker = some "Agent" := by
  have hpsd : perform_speaker_diarization nlp (mkT (s :: rest)) =
      diarizeLoop nlp (s :: rest) 0 none := by
    simp [perform_speaker_diarization, mkT]
  rw [hpsd, diarizeLoop_cons_ne nlp s rest 0 none h0]
  simp [speakerFor]

/-- Witness for the amended C5 at a concrete input with a classifier. -/
theorem c5_first_segment_agent_witness :
    ((perform_speaker_diarization (some cEx)
        (mkT [{ text := some "hi", start := some 0, «end» := some 1 }])).head?).map
      OutSeg.speaker = some "Agent" :=
  c5_first_segment_agent (some cEx)
    { text := some "hi", start := some 0, «end» := some 1 } [] (by decide)

/-! ### Claim C6 -/

theorem diarizeLoop_text_ne (nlp : Option Classifier) (segs : List InSeg) :
    ∀ (i : ℕ) (last : Option String) (o : OutSeg),
    o ∈ diarizeLoop nlp segs i last → o.text ≠ "" := by
  induction segs with
  | nil =>
    intro i last o ho
    simp [diarizeLoop] at ho
  | cons s rest ih =>
    intro i last o ho
    by_cases hs : pyStrip (effText s) = ""
    · rw [diarizeLoop_cons_empty nlp s rest i last hs] at ho
      exact ih _ _ o ho
    · rw [diarizeLoop_cons_ne nlp s rest i last hs] at ho
      rcases List.mem_cons.mp ho with h | h
      · rw [h]
        exact hs
      · exact ih _ _ o h

/-- Claim C6: segments whose text strips to empty never appear in the
attributed timeline (every attributed segment has non-empty text), the
`transcribe_audio` filtering transform keeps a sublist of the original
segments (relative order preserved), and every entry of the persisted
dialogue likewise has non-empty text. -/
theorem c6_empty_text_never_kept :
    (∀ (nlp : Option Classifier) (t : Transcription),
      ∀ o ∈ perform_speaker_diarization nlp t, o.text ≠ "")
  ∧ (∀ t : Transcription, (filter_segments t).segments.Sublist t.segments)
  ∧ (∀ (nlp : Option Classifier) (sf : String) (t : Transcription),
      ∀ d ∈ (speaker_with_diarization nlp sf t).dialogue, d.text ≠ "") := by
  have hmain : ∀ (nlp : Option Classifier) (t : Transcription),
      ∀ o ∈ perform_speaker_diarization nlp t, o.text ≠ "" := by
    intro nlp t o ho
    unfold perform_speaker_diarization at ho
    split_ifs at ho with h1 h2
    · simp at ho
    · simp at ho
    · exact diarizeLoop_text_ne nlp t.segments 0 none o ho
  refine ⟨hmain, fun t => List.filter_sublist _, ?_⟩
  intro nlp sf t d hd
  simp only [speaker_with_diarization, List.mem_map] at hd
  obtain ⟨o, ho, rfl⟩ := hd
  exact hmain nlp t o ho

/-- A timeline holding one whitespace-only and one real segment. -/
def c6segs : List InSeg :=
  [{ text := some "  ", start := some 0, «end» := some 1 },
   { text := some "hi", start := some 1, «end» := some 2 }]

/-- The single attributed segment produced from `c6segs`. -/
theorem c6_psd_eval :
    perform_speaker_diarization none (mkT c6segs) =
      [{ start := 1, «end» := 2, speaker := "Agent", duration := 1,
         text := "hi" }] := by
  simp +decide only [perform_speaker_diarization, mkT, diarizeLoop, pyStrip,
    dropLeadingWs, effText, speakerFor, c6segs, startOf, endOf, alternate]
  norm_num

/-- The single dialogue entry produced from `c6segs`. -/
theorem c6_dialogue_eval :
    (speaker_with_diarization none "f.wav" (mkT c6segs)).dialogue =
      [{ start := 1, «end» := 2, speaker := "Agent", text := "hi",
         duration := 1 }] := by
  simp only [speaker_with_diarization, c6_psd_eval, List.map_cons,
    List.map_nil]
  norm_num

/-- Witness for C6 at `c6segs`: the attributed segment and the dialogue
entry have non-empty text, and the filtered segment list is a sublist. -/
theorem c6_empty_text_never_kept_witness :
    ({ start := 1, «end» := 2, speaker := "Agent", duration := 1,
       text := "hi" } : OutSeg).text ≠ ""
  ∧ (filter_segments (mkT c6segs)).segments.Sublist (mkT c6segs).segments
  ∧ ({ start := 1, «end» := 2, speaker := "Agent", text := "hi",
       duration := 1 } : DiarSeg).text ≠ "" := by
  obtain ⟨h1, h2, h3⟩ := c6_empty_text_never_kept
  refine ⟨h1 none (mkT c6segs) _ ?_, h2 (mkT c6segs),
    h3 none "f.wav" (mkT c6segs) _ ?_⟩
  · rw [c6_psd_eval]
    exact List.mem_singleton_self _
  · rw [c6_dialogue_eval]
    exact List.mem_singleton_self _

/-! ### Claim C7 -/

/-- A segment whose `end` key is present and equal to its `start`. -/
def s7 : InSeg := { text := some "hi", start := some 2, «end» := some 2 }

/-- Counterexample to C7: a segment carrying an explicit `end` equal to its
`start` is emitted with a zero-length span — the 1-unit coercion applies
only when the `end` key is absent, so `end > start` fails here. -/
theorem c7_counterexample :
    perform_speaker_diarization none (mkT [s7]) =
      [{ start := 2, «end» := 2, speaker := "Agent", duration := 0,
         text := "hi" }]
  ∧ ¬ ((2 : ℚ) < 2) := by
  constructor
  · simp +decide only [perform_speaker_diarization, mkT, diarizeLoop, pyStrip,
      dropLeadingWs, effText, speakerFor, s7, startOf, endOf]
    norm_num
  · norm_num

/-- Claim C7 as amended: the 1-unit minimum span is applied exactly when a
segment has no `end` key — such a segment is attributed with
`end = start + 1`, so `end > start` holds for it. -/
theorem c7_end_default_when_missing (nlp : Option Classifier) (s : InSeg)
    (hs : pyStrip (effText s) ≠ "") (hend : s.«end» = none) :
    (perform_speaker_diarization nlp (mkT [s])).map
        (fun o => (o.start, o.«end»)) = [(startOf s, startOf s + 1)]
  ∧ startOf s < startOf s + 1 := by
  constructor
  · have hpsd : perform_speaker_diarization nlp (mkT [s]) =
        diarizeLoop nlp [s] 0 none := by
      simp [perform_speaker_diarization, mkT]
    rw [hpsd, diarizeLoop_cons_ne nlp s [] 0 none hs]
    simp [diarizeLoop, endOf, hend]
  · linarith

/-- Witness for the amended C7 at a concrete segment with no `end` key. -/
theorem c7_end_default_when_missing_witness :
    (perform_speaker_diarization none
        (mkT [{ text := some "hi", start := some 3 }])).map
        (fun o => (o.start, o.«end»))
      = [(startOf { text := some "hi", start := some 3 },
          startOf { text := some "hi", start := some 3 } + 1)]
  ∧ startOf { text := some "hi", start := some 3 } <
      startOf { text := some "hi", start := some 3 } + 1 :=
  c7_end_default_when_missing none { text := some "hi", start := some 3 }
    (by decide) rfl

/-! ### Claim C8 -/

theorem diarizeLoop_times (nlp : Option Classifier) (segs : List InSeg) :
    ∀ (i : ℕ) (last : Option String),
    (diarizeLoop nlp segs i last).map (fun o => (o.start, o.«end»)) =
      (segs.filter fun s => pyStrip (effText s) ≠ "").map
        fun s => (startOf s, endOf s) := by
  induction segs with
  | nil =>
    intro i last
    simp [diarizeLoop]
  | cons s rest ih =>
    intro i last
    by_cases hs : pyStrip (effText s) = ""
    · rw [diarizeLoop_cons_empty nlp s rest i last hs]
      simp [List.filter_cons, hs, ih]
    · rw [diarizeLoop_cons_ne nlp s rest i last hs]
      simp [List.filter_cons, hs, ih]

/-- Claim C8 as amended: the timeline component performs no ordering
validation at all — whatever the `start` order of the input, the attributed
output is the input processed unchanged: its `(start, end)` sequence is
exactly that of the non-blank input segments, in input order, never
reordered, rejected or flagged. -/
theorem c8_no_order_validation (nlp : Option Classifier) (segs : List InSeg) :
    (perform_speaker_diarization nlp (mkT segs)).map
        (fun o => (o.start, o.«end»)) =
      (segs.filter fun s => pyStrip (effText s) ≠ "").map
        fun s => (startOf s, endOf s) := by
  rcases segs with _ | ⟨s, rest⟩
  · simp [perform_speaker_diarization, mkT]
  · have hpsd : perform_speaker_diarization nlp (mkT (s :: rest)) =
        diarizeLoop nlp (s :: rest) 0 none := by
      simp [perform_speaker_diarization, mkT]
    rw [hpsd, diarizeLoop_times]

/-- A timeline whose segments are out of order: starts 2, then 0. -/
def c8segs : List InSeg :=
  [{ text := some "a", start := some 2, «end» := some 3 },
   { text := some "b", start := some 0, «end» := some 1 }]

/-- Counterexample to C8: on an input whose starts are not monotonically
non-decreasing, neither timeline transform rejects or flags anything — the
filtering step passes the segments through verbatim and the attribution
emits them unchanged, in input order, with normal alternation labels. -/
theorem c8_counterexample :
    ¬ List.Chain' (fun a b => startOf a ≤ startOf b) c8segs
  ∧ perform_speaker_diarization none (mkT c8segs) =
      [{ start := 2, «end» := 3, speaker := "Agent", duration := 1,
         text := "a" },
       { start := 0, «end» := 1, speaker := "Customer", duration := 1,
         text := "b" }]
  ∧ (filter_segments (mkT c8segs)).segments = c8segs := by
  refine ⟨?_, ?_, ?_⟩
  · simp only [c8segs, List.chain'_cons, List.chain'_singleton, and_true,
      startOf]
    norm_num
  · simp +decide only [perform_speaker_diarization, mkT, diarizeLoop, pyStrip,
      dropLeadingWs, effText, speakerFor, c8segs, startOf, endOf, alternate]
    norm_num
  · simp +decide only [filter_segments, mkT, c8segs, pyStrip, dropLeadingWs,
      List.filter_cons, List.filter_nil]

/-! ### Claims C9 and C10 -/

/-- Counterexample exhibiting the C9 failure: registry `[1, 2, 3]` with
channel 1 disconnected.  The publish removes channel 1 but, because the
Python `for` loop keeps indexing the mutated list, channel 2 — registered
and perfectly alive — is skipped: only channel 3 receives the record. -/
theorem c9_broadcast_skips_successor :
    broadcast (fun c => c != 1) [1, 2, 3] = ([2, 3], [3])
  ∧ (2 ∈ [1, 2, 3]
  ∧ (fun c => c != 1) 2 = true
  ∧ 2 ∉ (broadcast (fun c => c != 1) [1, 2, 3]).2) := by decide

theorem broadcastLoop_all_alive (alive : ℕ → Bool) :
    ∀ (fuel : ℕ) (l : List ℕ) (i : ℕ) (d : List ℕ),
    (∀ c ∈ l, alive c = true) → l.length ≤ fuel + i →
    broadcastLoop alive fuel l i d = (l, d ++ l.drop i) := by
  intro fuel
  induction fuel with
  | zero =>
    intro l i d _ hle
    rw [broadcastLoop, List.drop_eq_nil_of_le (by omega)]
    simp
  | succ n ih =>
    intro l i d hall hle
    rw [broadcastLoop]
    by_cases h : i < l.length
    · rw [dif_pos h]
      have hc : alive (l.get ⟨i, h⟩) = true := hall _ (l.get_mem _ _)
      rw [if_pos hc, ih l (i + 1) (d ++ [l.get ⟨i, h⟩]) hall (by omega)]
      rw [List.append_assoc]
      have hdrop : l.get ⟨i, h⟩ :: l.drop (i + 1) = l.drop i := by
        rw [List.get_eq_getElem]
        exact List.getElem_cons_drop l i h
      rw [List.singleton_append, hdrop]
    · rw [dif_neg h, List.drop_eq_nil_of_le (by omega)]
      simp

theorem broadcast_all_alive (alive : ℕ → Bool) (conns : List ℕ)
    (hall : ∀ c ∈ conns, alive c = true) :
    broadcast alive conns = (conns, conns) := by
  rw [broadcast, broadcastLoop_all_alive alive (conns.length + 1) conns 0 []
    hall (by omega)]
  simp

/-- Claim C10: the subscriber registry is one flat list, not keyed by job
id.  A published update for job `idB` carries `idB`, is delivered to every
registered channel (here: all alive) — including a client that connected
with a different analysis id `idA` — and the broadcast outcome does not
depend on which job the record belongs to. -/
theorem c10_registry_not_keyed (conns : List ℕ) (alive : ℕ → Bool)
    (hall : ∀ c ∈ conns, alive c = true) (idA idB status : String)
    (_hAB : idA ≠ idB) (progress : ℕ) (stage message : String) (c : ℕ)
    (hc : c ∈ conns) :
    (update_progress alive conns idB status progress stage
        message).1.analysis_id = idB
  ∧ c ∈ (update_progress alive conns idB status progress stage message).2.2
  ∧ (update_progress alive conns idA status progress stage message).2
      = (update_progress alive conns idB status progress stage message).2 := by
  refine ⟨rfl, ?_, rfl⟩
  simp only [update_progress, broadcast_all_alive alive conns hall]
  exact hc

/-- Witness for C10: a channel registered while viewing job A receives the
update published for job B. -/
theorem c10_registry_not_keyed_witness :
    (update_progress (fun _ => true) [5, 6] "job-B" "processing" 10
        "transcription" "m").1.analysis_id = "job-B"
  ∧ 5 ∈ (update_progress (fun _ => true) [5, 6] "job-B" "processing" 10
        "transcription" "m").2.2
  ∧ (update_progress (fun _ => true) [5, 6] "job-A" "processing" 10
        "transcription" "m").2
      = (update_progress (fun _ => true) [5, 6] "job-B" "processing" 10
        "transcription" "m").2 :=
  c10_registry_not_keyed [5, 6] (fun _ => true) (by decide) "job-A" "job-B"
    "processing" (by decide) 10 "transcription" "m" 5 (by decide)

/-! ### Claims C1, C2, C3 -/

/-- The conjunction of the checks `save_analysis_result` performs before the
INSERT: the four required non-empty strings, the industry restriction, and
the presence of the `conversation_summary` key (whose absence raises a
caught `KeyError`). -/
def validationOk (d : AnalysisData) : Prop :=
  d.analysis_id ≠ "" ∧ d.processed_at ≠ "" ∧ d.source_file ≠ ""
  ∧ d.industry ≠ "" ∧ d.industry ∈ validIndustries
  ∧ d.analysis.conversation_summary.isSome = true

instance (d : AnalysisData) : Decidable (validationOk d) := by
  unfold validationOk
  infer_instance

theorem save_dichotomy (dbOk : Bool) (d : AnalysisData) :
    (validationOk d ∧ dbOk = true ∧ save_analysis_result dbOk d = none)
  ∨ ((¬ validationOk d ∨ dbOk = false)
      ∧ save_analysis_result dbOk d = some false) := by
  unfold save_analysis_result
  by_cases h1 : d.analysis_id = ""
  · rw [if_pos h1]
    exact Or.inr ⟨Or.inl fun hv => hv.1 h1, rfl⟩
  rw [if_neg h1]
  by_cases h2 : d.processed_at = ""
  · rw [if_pos h2]
    exact Or.inr ⟨Or.inl fun hv => hv.2.1 h2, rfl⟩
  rw [if_neg h2]
  by_cases h3 : d.source_file = ""
  · rw [if_pos h3]
    exact Or.inr ⟨Or.inl fun hv => hv.2.2.1 h3, rfl⟩
  rw [if_neg h3]
  by_cases h4 : d.industry = ""
  · rw [if_pos h4]
    exact Or.inr ⟨Or.inl fun hv => hv.2.2.2.1 h4, rfl⟩
  rw [if_neg h4]
  by_cases h5 : d.industry ∈ validIndustries
  · rw [if_neg (not_not_intro h5)]
    rcases hcs : d.analysis.conversation_summary with _ | s
    · refine Or.inr ⟨Or.inl fun hv => ?_, rfl⟩
      have hsum := hv.2.2.2.2.2
      rw [hcs] at hsum
      simp at hsum
    · rcases dbOk with _ | _
      · exact Or.inr ⟨Or.inr rfl, rfl⟩
      · refine Or.inl ⟨⟨h1, h2, h3, h4, h5, ?_⟩, rfl, rfl⟩
        rw [hcs]
        rfl
  · rw [if_pos h5]
    exact Or.inr ⟨Or.inl fun hv => h5 hv.2.2.2.2.1, rfl⟩

/-- Claim C2: `save_analysis_result` returns `False` on every validation or
database failure and Python `None` (never `True`) after a successful commit;
its result is never truthy, so `if not success:` in the orchestrator always
takes the error branch. -/
theorem c2_save_never_truthy (dbOk : Bool) (d : AnalysisData) :
    save_analysis_result dbOk d ≠ some true
  ∧ pyTruthy (save_analysis_result dbOk d) = false
  ∧ (validationOk d → dbOk = true → save_analysis_result dbOk d = none)
  ∧ (¬ validationOk d ∨ dbOk = false →
      save_analysis_result dbOk d = some false) := by
  rcases save_dichotomy dbOk d with ⟨hv, hdb, heq⟩ | ⟨hnv, heq⟩
  · rw [heq]
    refine ⟨by simp, rfl, fun _ _ => rfl, ?_⟩
    intro h
    rcases h with h | h
    · exact absurd hv h
    · rw [hdb] at h
      cases h
  · rw [heq]
    refine ⟨by simp, rfl, ?_, fun _ => rfl⟩
    intro hv hdb
    rcases hnv with h | h
    · exact absurd hv h
    · rw [hdb] at h
      cases h

/-- A one-segment transcription whose every stage succeeds. -/
def exTrans : Transcription :=
  { full_text := "Hello there", segments :=
      [{ text := some "Hello there", start := some 0, «end» := some 2,
         confidence := some 1 }],
    language := "en", duration := 2 }

/-- An analyzer result carrying every consulted key. -/
def exAnalysis : Analysis :=
  { overall_sentiment := some ("positive", 1 / 2),
    conversation_summary := some "Agent greeted the customer.",
    quality_metrics_overall_score := some 80 }

/-- The `complete_analysis_data` assembled on the all-success run. -/
def exData : AnalysisData :=
  assemble_data "id-1" "u1" "2026-01-01T00:00:00" "uploads/u1/id-1_a.wav"
    "Telecom" (speaker_with_diarization none (basename "uploads/u1/id-1_a.wav")
      exTrans) exAnalysis

/-- Witness for C2 on the concrete all-success data: the commit happens and
the function still returns `None`, which is not truthy. -/
theorem c2_save_never_truthy_witness :
    save_analysis_result true exData = none
  ∧ pyTruthy (save_analysis_result true exData) = false
  ∧ save_analysis_result true exData ≠ some true :=
  ⟨(c2_save_never_truthy true exData).2.2.1 (by decide) rfl,
   (c2_save_never_truthy true exData).2.1,
   (c2_save_never_truthy true exData).1⟩

/-- Claim C1, evaluated on a run where every collaborator succeeds
(transcription returns one non-empty segment, diarization and analysis
succeed, the database commits — the assembled data passes every validation
and `save_analysis_result` falls off its end returning `None`): the final
ProgressRecord is `(error, 0, saving)`, not `(completed, 100, completed)`,
and no record of the run ever has status `completed`. -/
theorem c1_completed_record_unreachable :
    (process_audio_file none (.ok (some exTrans)) exAnalysis true
        "uploads/u1/id-1_a.wav" "id-1" "Telecom" "u1"
        "2026-01-01T00:00:00").getLast?
      = some { status := "error", progress := 0, stage := "saving",
               message := "Failed to save analysis results" }
  ∧ (∀ r ∈ process_audio_file none (.ok (some exTrans)) exAnalysis true
        "uploads/u1/id-1_a.wav" "id-1" "Telecom" "u1" "2026-01-01T00:00:00",
      r.status ≠ "completed")
  ∧ save_analysis_result true exData = none := by decide

/-- The dict `transcribe_with_speechrecognition` returns when recognition
fails: all keys present, `error` set — a non-empty dict, hence truthy. -/
def faultTrans : Transcription :=
  { full_text := "", segments := [], language := "unknown", duration := 0,
    error := some "recognition failed" }

/-- Claim C3, evaluated on a run whose transcription collaborator fails by
returning its fault dict: `if not transcription:` sees a truthy non-empty
dict, so no `(error, transcription)` record is ever emitted, the analysis
and saving stages run anyway, and the run ends with `(error, 0, saving)`
instead of `(error, 0, transcription)`. -/
theorem c3_fault_dict_not_fatal :
    (∀ r ∈ process_audio_file none (.ok (some faultTrans)) exAnalysis true
        "uploads/u1/id-2_a.wav" "id-2" "Telecom" "u1" "2026-01-01T00:00:00",
      ¬ (r.status = "error" ∧ r.stage = "transcription"))
  ∧ ({ status := "processing", progress := 50, stage := "analysis",
       message := "Performing NLP analysis..." } : ProgressRecord)
      ∈ process_audio_file none (.ok (some faultTrans)) exAnalysis true
        "uploads/u1/id-2_a.wav" "id-2" "Telecom" "u1" "2026-01-01T00:00:00"
  ∧ (process_audio_file none (.ok (some faultTrans)) exAnalysis true
        "uploads/u1/id-2_a.wav" "id-2" "Telecom" "u1"
        "2026-01-01T00:00:00").getLast?
      = some { status := "error", progress := 0, stage := "saving",
               message := "Failed to save analysis results" }
  ∧ faultTrans.error = some "recognition failed" := by decide

end CallAnalyzer
